import Mathlib

/-!
Verification of the pagination/menu layer of the pokecord cog
(`src/pokecord/menus.py`), shallowly embedded in Lean 4.

The embedding covers: Python list indexing as used by the vendored
`ListPageSource.get_page` (`per_page = 1` in every source class of this file),
the `show_page` / `show_checked_page` primitives of the vendored menus
framework (`redbot.vendored.discord.ext.menus`, a dependency of this
repository; their bodies are the well-known discord-ext-menus ones that the
button handlers in `menus.py` call into), the button handlers of
`PokeListMenu` and `GenericMenu`, the skip (visibility) predicates, the
shared `reaction_check`, the jump sub-dialog `number_page`, and the
`PokeList.format_page` renderer.
-/

namespace Pokecord

/-- Python `l[i]` for a list: a non-negative index is used directly, a
negative index `i` addresses `len(l) + i`; anything out of `[0, len)` after
that adjustment raises `IndexError`, modelled as `none`. -/
def pyIndex {α : Type} (l : List α) (i : Int) : Option α :=
  let j : Int := if i < 0 then (l.length : Int) + i else i
  if 0 ≤ j ∧ j < (l.length : Int) then l.get? j.toNat else none

/-- The vendored `menus.ListPageSource` specialised to `per_page = 1`, which
is what `PokeList`, `SearchFormat` and `PokedexFormat` all pass to
`super().__init__`. -/
structure ListPageSource (α : Type) where
  entries : List α

/-- With `per_page = 1`, `divmod(len(entries), 1) = (len(entries), 0)`, so
`get_max_pages` returns `len(entries)`. -/
def ListPageSource.get_max_pages {α : Type} (s : ListPageSource α) : Nat :=
  s.entries.length

/-- With `per_page = 1`, `get_page(n)` returns `self.entries[n]` with Python
indexing semantics (raises `IndexError`, i.e. `none`, when out of range). -/
def ListPageSource.get_page {α : Type} (s : ListPageSource α) (n : Int) : Option α :=
  pyIndex s.entries n

/-- The mutable state of one menu instance: the 0-based `current_page`
(a Python int) and the framework's `_running` flag. -/
structure MenuState where
  current_page : Int
  running : Bool
deriving DecidableEq

/-- Result of one button handler: the state after the handler, the pages it
rendered (each `show_page` that completed edits the message once), and
whether an uncaught exception (`IndexError` from `get_page`) escaped the
handler. -/
structure NavOut where
  state : MenuState
  renders : List Int
  raised : Bool
deriving DecidableEq

/-- Vendored `MenuPages.show_page`: fetches the page first, then assigns
`self.current_page = page_number` and edits the message. When `get_page`
raises, the assignment is never reached, so the state is unchanged and the
exception propagates (`raised = true`). -/
def show_page {α : Type} (s : ListPageSource α) (st : MenuState) (page_number : Int) : NavOut :=
  if (s.get_page page_number).isSome then
    ⟨{ st with current_page := page_number }, [page_number], false⟩
  else
    ⟨st, [], true⟩

/-- Vendored `MenuPages.show_checked_page`: calls `show_page` only when
`max_pages > page_number >= 0` (our sources never return `None` for
`get_max_pages`), inside a `try/except IndexError: pass`, so it never lets
an `IndexError` escape and otherwise leaves the state alone. -/
def show_checked_page {α : Type} (s : ListPageSource α) (st : MenuState) (page_number : Int) : NavOut :=
  if 0 ≤ page_number ∧ page_number < (s.get_max_pages : Int) then
    let o := show_page s st page_number
    ⟨o.state, o.renders, false⟩
  else
    ⟨st, [], false⟩

/-- `PokeListMenu.prev`: wrap to the last page when the current index is 0,
otherwise a checked step back. -/
def PokeListMenu.prev {α : Type} (s : ListPageSource α) (st : MenuState) : NavOut :=
  if st.current_page = 0 then
    show_page s st ((s.get_max_pages : Int) - 1)
  else
    show_checked_page s st (st.current_page - 1)

/-- `PokeListMenu.next`: wrap to page 0 when the current index is the last
page, otherwise a checked step forward. -/
def PokeListMenu.next {α : Type} (s : ListPageSource α) (st : MenuState) : NavOut :=
  if st.current_page = (s.get_max_pages : Int) - 1 then
    show_page s st 0
  else
    show_checked_page s st (st.current_page + 1)

/-- `PokeListMenu.stop_pages_default`: calls `self.stop()`, which clears the
framework's `_running` flag. -/
def PokeListMenu.stop_pages_default (st : MenuState) : MenuState :=
  { st with running := false }

/-- `GenericMenu.prev` (textually identical to `PokeListMenu.prev` in the
source). -/
def GenericMenu.prev {α : Type} (s : ListPageSource α) (st : MenuState) : NavOut :=
  if st.current_page = 0 then
    show_page s st ((s.get_max_pages : Int) - 1)
  else
    show_checked_page s st (st.current_page - 1)

/-- `GenericMenu.next` (textually identical to `PokeListMenu.next` in the
source). -/
def GenericMenu.next {α : Type} (s : ListPageSource α) (st : MenuState) : NavOut :=
  if st.current_page = (s.get_max_pages : Int) - 1 then
    show_page s st 0
  else
    show_checked_page s st (st.current_page + 1)

/-- `GenericMenu.stop_pages_default`: calls `self.stop()`. -/
def GenericMenu.stop_pages_default (st : MenuState) : MenuState :=
  { st with running := false }

/-- `GenericMenu.go_to_first_page`: `show_page(0)` unconditionally. -/
def GenericMenu.go_to_first_page {α : Type} (s : ListPageSource α) (st : MenuState) : NavOut :=
  show_page s st 0

/-- `GenericMenu.go_to_last_page`: `show_page(get_max_pages() - 1)`
unconditionally (the source comments that the call is guarded by its
`skip_if`). -/
def GenericMenu.go_to_last_page {α : Type} (s : ListPageSource α) (st : MenuState) : NavOut :=
  show_page s st ((s.get_max_pages : Int) - 1)

/-- `GenericMenu._skip_single_arrows`: skip (hide) the single-arrow buttons
when `get_max_pages()` is `None` or exactly `1`. -/
def GenericMenu.skip_single_arrows (max_pages : Option Nat) : Bool :=
  match max_pages with
  | none => true
  | some m => m == 1

/-- `GenericMenu._skip_double_triangle_buttons`: skip (hide) the first/last
jump buttons when `get_max_pages()` is `None` or `<= 2`. -/
def GenericMenu.skip_double_triangle_buttons (max_pages : Option Nat) : Bool :=
  match max_pages with
  | none => true
  | some m => decide (m ≤ 2)

/-- `PokeListMenu._cant_select`: `not self.ctx.author == self.user`, given
here the boolean saying whether the invoking author equals the menu's
configured user. -/
def PokeListMenu.cant_select (authorEqUser : Bool) : Bool :=
  ! authorEqUser

/-- The emoji `\N{BLACK LEFT-POINTING TRIANGLE}` labelling `prev`. -/
def EMOJI_PREV : String := "◀"

/-- The emoji `\N{CROSS MARK}` labelling `stop_pages_default`. -/
def EMOJI_STOP : String := "❌"

/-- The emoji `\N{BLACK RIGHT-POINTING TRIANGLE}` labelling `next`. -/
def EMOJI_NEXT : String := "▶"

/-- The emoji `\N{WHITE HEAVY CHECK MARK}` labelling `select`. -/
def EMOJI_SELECT : String := "✅"

/-- The emoji `\N{LEFT-POINTING MAGNIFYING GLASS}` labelling `number_page`. -/
def EMOJI_JUMP : String := "🔍"

/-- The emoji `\N{BLACK LEFT-POINTING DOUBLE TRIANGLE WITH VERTICAL BAR}️`
labelling `go_to_first_page`. -/
def EMOJI_FIRST : String := "⏮️"

/-- The emoji `\N{BLACK RIGHT-POINTING DOUBLE TRIANGLE WITH VERTICAL BAR}️`
labelling `go_to_last_page`. -/
def EMOJI_LAST : String := "⏭️"

/-- The part of a `discord.RawReactionActionEvent` that `reaction_check`
inspects: the reacted-to message, the acting user and the emoji. -/
structure Payload where
  message_id : Nat
  user_id : Nat
  emoji : String
deriving DecidableEq

/-- The construction-time data `reaction_check` reads from the menu: the id
of the rendered message, the host bot's `owner_ids`, the `_author_id` of the
invoking user, and the emojis of the buttons that were added. -/
structure MenuConfig where
  message_id : Nat
  owner_ids : List Nat
  author_id : Nat
  buttons : List String
deriving DecidableEq

/-- `reaction_check`, the shared body of `PokeListMenu.reaction_check` and
`GenericMenu.reaction_check` (the two are textually identical): reject a
payload for another message; reject a user outside
`(*self.bot.owner_ids, self._author_id)`; otherwise process the payload
exactly when its emoji is one of the menu's buttons. -/
def reaction_check (cfg : MenuConfig) (p : Payload) : Bool :=
  if p.message_id ≠ cfg.message_id then false
  else if p.user_id ∉ cfg.owner_ids ++ [cfg.author_id] then false
  else cfg.buttons.contains p.emoji

/-- The data a `skip_if` predicate can read from its menu: the source's
`get_max_pages()` (with `none` for Python `None`) and whether
`ctx.author == user`. -/
structure MenuEnv where
  maxPages : Option Nat
  authorEqUser : Bool
deriving DecidableEq

/-- One `@menus.button` registration: the emoji and the `skip_if` predicate
(buttons registered without `skip_if` never skip). -/
structure Button where
  emoji : String
  skip : MenuEnv → Bool

/-- The buttons `PokeListMenu` declares, in `menus.First` position order
(`prev` 0, `stop` 1, `next` 2, `select` 3, `jump` 4): only `select` carries
a `skip_if` (`_cant_select`). -/
def PokeListMenu.buttonList : List Button :=
  [⟨EMOJI_PREV, fun _ => false⟩,
   ⟨EMOJI_STOP, fun _ => false⟩,
   ⟨EMOJI_NEXT, fun _ => false⟩,
   ⟨EMOJI_SELECT, fun e => PokeListMenu.cant_select e.authorEqUser⟩,
   ⟨EMOJI_JUMP, fun _ => false⟩]

/-- The buttons `GenericMenu` declares: single arrows guarded by
`_skip_single_arrows`, double triangles by `_skip_double_triangle_buttons`,
stop unguarded. -/
def GenericMenu.buttonList : List Button :=
  [⟨EMOJI_PREV, fun e => GenericMenu.skip_single_arrows e.maxPages⟩,
   ⟨EMOJI_STOP, fun _ => false⟩,
   ⟨EMOJI_NEXT, fun e => GenericMenu.skip_single_arrows e.maxPages⟩,
   ⟨EMOJI_FIRST, fun e => GenericMenu.skip_double_triangle_buttons e.maxPages⟩,
   ⟨EMOJI_LAST, fun e => GenericMenu.skip_double_triangle_buttons e.maxPages⟩]

/-- The emojis of the buttons actually added to a menu: the framework adds a
registered button exactly when its `skip_if` returns `False`. -/
def visibleEmojis (bs : List Button) (e : MenuEnv) : List String :=
  (bs.filter (fun b => ! b.skip e)).map (fun b => b.emoji)

/-- The outcome of the jump sub-dialog wait: either `asyncio.TimeoutError`,
or a reply message that passed `MessagePredicate.valid_int` (so its content
parses as the integer carried here, which the predicate stored in
`pred.result`). -/
inductive JumpReply where
  | timeout
  | intReply (t : Int)
deriving DecidableEq

/-- Everything observable about one run of `PokeListMenu.number_page`: the
state after it, the pages it rendered, whether the "Invalid Pokémon ID,
jumping to the end." notice was sent, and whether the prompt and the reply
messages were deleted by `cleanup`. -/
structure JumpOut where
  state : MenuState
  renders : List Int
  notice : Bool
  promptDeleted : Bool
  replyDeleted : Bool
deriving DecidableEq

/-- `PokeListMenu.number_page`: send a prompt, wait up to 10 seconds for a
valid-int reply. On timeout, delete only the prompt. On a reply, the body
runs under `if pred.result:` — Python truthiness, false exactly when the
parsed integer is 0 — and then clamps a too-large target to
`get_max_pages()` (sending the notice), calls
`show_checked_page(jump_page - 1)`, and deletes both prompt and reply. When
`pred.result` is falsy nothing at all happens (no jump, no cleanup). -/
def PokeListMenu.number_page {α : Type} (s : ListPageSource α) (st : MenuState)
    (r : JumpReply) : JumpOut :=
  match r with
  | JumpReply.timeout => ⟨st, [], false, true, false⟩
  | JumpReply.intReply t =>
    if t ≠ 0 then
      let maxp : Int := s.get_max_pages
      let notice : Bool := decide (maxp < t)
      let jump_page := if maxp < t then maxp else t
      let o := show_checked_page s st (jump_page - 1)
      ⟨o.state, o.renders, notice, true, true⟩
    else
      ⟨st, [], false, false, false⟩

/-- `PokeListMenu.select`: `ctx.invoke(select_command, _id=self.current_page + 1)`;
the handler touches no menu state and returns the 1-based id it forwards. -/
def PokeListMenu.select (st : MenuState) : MenuState × Int :=
  (st, st.current_page + 1)

/-- Everything observable about one controller step: the state after it, the
pages rendered, the `_id` arguments forwarded to the external `select`
command, the jump-dialog observables, and whether a handler raised (the
framework's `update` catches such exceptions in `on_menu_button_error`). -/
structure StepResult where
  state : MenuState
  renders : List Int
  selects : List Int
  notice : Bool
  promptDeleted : Bool
  replyDeleted : Bool
  raised : Bool
deriving DecidableEq

/-- The step that processes nothing and changes nothing. -/
def StepResult.noop (st : MenuState) : StepResult :=
  ⟨st, [], [], false, false, false, false⟩

/-- Lift a navigation handler result to a controller step. -/
def NavOut.toStep (o : NavOut) : StepResult :=
  ⟨o.state, o.renders, [], false, false, false, o.raised⟩

/-- Lift a jump-dialog result to a controller step (`show_checked_page`
never raises). -/
def JumpOut.toStep (o : JumpOut) : StepResult :=
  ⟨o.state, o.renders, [], o.notice, o.promptDeleted, o.replyDeleted, false⟩

/-- Dispatch of an accepted payload to the `PokeListMenu` handler registered
for its emoji (an emoji matching no button does nothing). -/
def pokeDispatch {α : Type} (s : ListPageSource α) (st : MenuState) (emoji : String)
    (r : JumpReply) : StepResult :=
  if emoji = EMOJI_PREV then (PokeListMenu.prev s st).toStep
  else if emoji = EMOJI_STOP then
    ⟨PokeListMenu.stop_pages_default st, [], [], false, false, false, false⟩
  else if emoji = EMOJI_NEXT then (PokeListMenu.next s st).toStep
  else if emoji = EMOJI_JUMP then (PokeListMenu.number_page s st r).toStep
  else if emoji = EMOJI_SELECT then
    ⟨(PokeListMenu.select st).1, [], [(PokeListMenu.select st).2], false, false, false, false⟩
  else StepResult.noop st

/-- One controller step of a `PokeListMenu`: the framework's `update` does
nothing once `_running` is cleared, the payload must pass `reaction_check`
(which is what gets installed in `wait_for`), and then the button handler
for the payload's emoji runs. -/
def pokeUpdate {α : Type} (s : ListPageSource α) (cfg : MenuConfig) (st : MenuState)
    (p : Payload) (r : JumpReply) : StepResult :=
  if st.running = false then StepResult.noop st
  else if reaction_check cfg p = false then StepResult.noop st
  else pokeDispatch s st p.emoji r

/-- Run a sequence of action events through the controller, accumulating the
rendered pages. -/
def runEvents {α : Type} (s : ListPageSource α) (cfg : MenuConfig)
    (st : MenuState) (evs : List (Payload × JumpReply)) : MenuState × List Int :=
  evs.foldl
    (fun acc ev =>
      let o := pokeUpdate s cfg acc.1 ev.1 ev.2
      (o.state, acc.2 ++ o.renders))
    (st, [])

/-- The six stat values `PokeList.format_page` reads from
`pokemon["stats"]`. -/
structure PokeStats where
  hp : Nat
  attack : Nat
  defence : Nat
  spatk : Nat
  spdef : Nat
  speed : Nat
deriving DecidableEq

/-- One Pokémon record as `PokeList.format_page` consumes it. A missing
dict key is `none`; `id`, `variant` and `url` are tested with Python
truthiness in the source (`pokemon.get(...)`), while `nickname` is tested
with `is not None`. -/
structure PokemonRecord where
  name : String
  nickname : Option String
  variant : Option String
  level : Nat
  xp : Nat
  typeList : List String
  stats : PokeStats
  id : Option Nat
  url : Option String
  sid : Nat

/-- Python truthiness of `pokemon.get(key)` for an int-valued key: falsy
when the key is absent or the value is 0. -/
def truthyNat : Option Nat → Bool
  | none => false
  | some n => n != 0

/-- Python truthiness of `pokemon.get(key)` for a string-valued key: falsy
when the key is absent or the value is the empty string. -/
def truthyStr : Option String → Bool
  | none => false
  | some v => v != ""

/-- Python `str.zfill(width)` for the digit strings used here (non-negative
ids, so no sign handling is involved): left-pad with `'0'` to `width`. -/
def zfill (v : String) (width : Nat) : String :=
  if width ≤ v.length then v
  else String.mk (List.replicate (width - v.length) '0') ++ v

/-- `redbot.core.utils.chat_formatting.box`: fenced code block with a
language tag. -/
def box (text : String) (lang : String) : String :=
  "```" ++ lang ++ "\n" ++ text ++ "\n```"

/-- The default thumbnail asset URL, keyed by the zero-padded catalog id. -/
def defaultThumbUrl (id : Nat) : String :=
  "https://assets.pokemon.com/assets/cms2/img/pokedex/detail/"
    ++ zfill (toString id) 3 ++ ".png"

/-- The fields of the `discord.Embed` that `PokeList.format_page` builds:
title, description, the optional thumbnail URL (`set_thumbnail` is only
called for a truthy id) and the footer text. -/
structure Embed where
  title : String
  description : String
  thumbnail : Option String
  footer : String
deriving DecidableEq

/-- `PokeList.format_page`, parameterised by the external collaborators it
calls: `tabulate.tabulate` on the six stat rows, the cog's `calc_xp` and
`get_name` (the latter already applied to the viewing author). The body
mirrors the source: nickname line when the key `is not None`, variant line
when truthy, id text `#id` when truthy else `"0"`, the stat table boxed
with lang `prolog`, thumbnail only for a truthy id (explicit `url` when
truthy, else the default asset URL), and the `sid`/`get_max_pages()`
footer. -/
def PokeList.format_page (tabulate : List (String × Nat) → String)
    (calc_xp : Nat → Nat) (get_name : String → String)
    (s : ListPageSource PokemonRecord) (pokemon : PokemonRecord) : Embed :=
  let pokestats := tabulate
    [("HP", pokemon.stats.hp), ("Attack", pokemon.stats.attack),
     ("Defence", pokemon.stats.defence), ("Sp. Atk", pokemon.stats.spatk),
     ("Sp. Def", pokemon.stats.spdef), ("Speed", pokemon.stats.speed)]
  let aliasText :=
    match pokemon.nickname with
    | some nick => "**Nickname**: " ++ nick ++ "\n"
    | none => ""
  let variantLine :=
    if truthyStr pokemon.variant then
      "**Variant**: " ++ pokemon.variant.getD "" ++ "\n"
    else ""
  let types := String.intercalate ", " pokemon.typeList
  let idText :=
    if truthyNat pokemon.id then "#" ++ toString (pokemon.id.getD 0) else "0"
  let desc :=
    "**ID**: " ++ idText ++ "\n" ++ aliasText
      ++ "**Level**: " ++ toString pokemon.level
      ++ "\n**Type**: " ++ types
      ++ "\n**XP**: " ++ toString pokemon.xp ++ "/" ++ toString (calc_xp pokemon.level)
      ++ "\n" ++ variantLine ++ box pokestats "prolog"
  let thumb :=
    if truthyNat pokemon.id then
      some (if truthyStr pokemon.url then pokemon.url.getD ""
            else defaultThumbUrl (pokemon.id.getD 0))
    else none
  { title := get_name pokemon.name
    description := desc
    thumbnail := thumb
    footer := "Pokémon ID: " ++ toString pokemon.sid ++ "/"
      ++ toString s.get_max_pages }

/-! Concrete fixtures used by counterexamples and witnesses. -/

/-- A five-page source (`get_max_pages() = 5`). -/
def exFive : ListPageSource String := ⟨["a", "b", "c", "d", "e"]⟩

/-- A three-page source (`get_max_pages() = 3`). -/
def exThree : ListPageSource String := ⟨["a", "b", "c"]⟩

/-- A source with no entries (`get_max_pages() = 0`). -/
def exEmpty : ListPageSource String := ⟨[]⟩

/-- A running menu on page 3. -/
def stThree : MenuState := ⟨3, true⟩

/-- A running menu on page 0. -/
def stZero : MenuState := ⟨0, true⟩

/-- A record whose dict has no `"id"` key (the description code itself
anticipates this: `f"#{...}" if pokemon.get("id") else "0"`). -/
def noIdRecord : PokemonRecord :=
  { name := "missingno", nickname := none, variant := none, level := 5,
    xp := 10, typeList := ["Normal"], stats := ⟨1, 2, 3, 4, 5, 6⟩,
    id := none, url := none, sid := 1 }

/-- A record with a catalog id and no explicit sprite URL. -/
def bulbaRecord : PokemonRecord :=
  { name := "bulbasaur", nickname := some "Bulby", variant := none,
    level := 12, xp := 30, typeList := ["Grass", "Poison"],
    stats := ⟨45, 49, 49, 65, 65, 45⟩, id := some 1, url := none, sid := 1 }

/-- A record with an explicit sprite URL. -/
def urlRecord : PokemonRecord :=
  { name := "pikachu", nickname := none, variant := some "shiny",
    level := 7, xp := 2, typeList := ["Electric"],
    stats := ⟨35, 55, 40, 50, 50, 90⟩, id := some 25,
    url := some "https://example.com/pika.png", sid := 2 }

/-! Helper lemmas. -/

lemma pyIndex_isSome {α : Type} (l : List α) (i : Int)
    (h0 : 0 ≤ i) (h1 : i < (l.length : Int)) : (pyIndex l i).isSome := by
  have hni : ¬ i < 0 := not_lt.mpr h0
  have hlt : i.toNat < l.length := by omega
  simp [pyIndex, hni, h0, h1, List.get?_eq_get hlt]

lemma show_page_inRange {α : Type} (s : ListPageSource α) (st : MenuState) (n : Int)
    (h0 : 0 ≤ n) (h1 : n < (s.get_max_pages : Int)) :
    show_page s st n = ⟨{ st with current_page := n }, [n], false⟩ := by
  have h : (s.get_page n).isSome := pyIndex_isSome s.entries n h0 h1
  simp [show_page, h]

lemma show_checked_page_inRange {α : Type} (s : ListPageSource α) (st : MenuState) (n : Int)
    (h0 : 0 ≤ n) (h1 : n < (s.get_max_pages : Int)) :
    show_checked_page s st n = ⟨{ st with current_page := n }, [n], false⟩ := by
  unfold show_checked_page
  rw [if_pos ⟨h0, h1⟩, show_page_inRange s st n h0 h1]

lemma show_checked_page_outRange {α : Type} (s : ListPageSource α) (st : MenuState) (n : Int)
    (h : ¬ (0 ≤ n ∧ n < (s.get_max_pages : Int))) :
    show_checked_page s st n = ⟨st, [], false⟩ := by
  unfold show_checked_page
  rw [if_neg h]

lemma PokeListMenu.next_eq {α : Type} (s : ListPageSource α) (st : MenuState)
    (hmax : 1 ≤ s.get_max_pages) (h0 : 0 ≤ st.current_page)
    (h1 : st.current_page < (s.get_max_pages : Int)) :
    PokeListMenu.next s st =
      if st.current_page = (s.get_max_pages : Int) - 1 then
        ⟨{ st with current_page := 0 }, [0], false⟩
      else
        ⟨{ st with current_page := st.current_page + 1 },
          [st.current_page + 1], false⟩ := by
  unfold PokeListMenu.next
  by_cases hc : st.current_page = (s.get_max_pages : Int) - 1
  · rw [if_pos hc, if_pos hc]
    exact show_page_inRange s st 0 le_rfl (by omega)
  · rw [if_neg hc, if_neg hc]
    exact show_checked_page_inRange s st _ (by omega) (by omega)

lemma PokeListMenu.prev_eq {α : Type} (s : ListPageSource α) (st : MenuState)
    (hmax : 1 ≤ s.get_max_pages) (h0 : 0 ≤ st.current_page)
    (h1 : st.current_page < (s.get_max_pages : Int)) :
    PokeListMenu.prev s st =
      if st.current_page = 0 then
        ⟨{ st with current_page := (s.get_max_pages : Int) - 1 },
          [(s.get_max_pages : Int) - 1], false⟩
      else
        ⟨{ st with current_page := st.current_page - 1 },
          [st.current_page - 1], false⟩ := by
  unfold PokeListMenu.prev
  by_cases hc : st.current_page = 0
  · rw [if_pos hc, if_pos hc]
    exact show_page_inRange s st _ (by omega) (by omega)
  · rw [if_neg hc, if_neg hc]
    exact show_checked_page_inRange s st _ (by omega) (by omega)

/-- An abstract next/previous action, for stating sequences of calls. -/
inductive NavAct where
  | next
  | prev
deriving DecidableEq

/-- The state reached by one `next`/`prev` button press (the handler's state
component; exceptions cannot occur in the in-bounds regime of C1). -/
def navStep {α : Type} (s : ListPageSource α) (st : MenuState) : NavAct → MenuState
  | NavAct.next => (PokeListMenu.next s st).state
  | NavAct.prev => (PokeListMenu.prev s st).state

/-- The state reached by a sequence of `next`/`prev` button presses. -/
def navRun {α : Type} (s : ListPageSource α) (st : MenuState) (acts : List NavAct) : MenuState :=
  acts.foldl (navStep s) st

lemma navStep_preserves {α : Type} (s : ListPageSource α) (st : MenuState) (a : NavAct)
    (hmax : 1 ≤ s.get_max_pages)
    (hinv : 0 ≤ st.current_page ∧ st.current_page < (s.get_max_pages : Int)) :
    0 ≤ (navStep s st a).current_page
    ∧ (navStep s st a).current_page < (s.get_max_pages : Int) := by
  cases a with
  | next =>
    simp only [navStep, PokeListMenu.next_eq s st hmax hinv.1 hinv.2]
    split <;> simp <;> omega
  | prev =>
    simp only [navStep, PokeListMenu.prev_eq s st hmax hinv.1 hinv.2]
    split <;> simp <;> omega

lemma navRun_preserves {α : Type} (s : ListPageSource α) (acts : List NavAct) :
    ∀ st : MenuState, 1 ≤ s.get_max_pages →
      0 ≤ st.current_page → st.current_page < (s.get_max_pages : Int) →
      0 ≤ (navRun s st acts).current_page
      ∧ (navRun s st acts).current_page < (s.get_max_pages : Int) := by
  induction acts with
  | nil => exact fun st _ h0 h1 => ⟨h0, h1⟩
  | cons a acts ih =>
    intro st hmax h0 h1
    have hstep := navStep_preserves s st a hmax ⟨h0, h1⟩
    exact ih (navStep s st a) hmax hstep.1 hstep.2

/-! Claim theorems. -/

/-- C1: for every `totalPages ≥ 1` and every starting index in
`[0, totalPages-1]`, any sequence of next/previous presses keeps the index
in `[0, totalPages-1]`; `next` at the last page wraps to 0 and otherwise
advances by 1, `prev` at 0 wraps to the last page and otherwise decrements
by 1; and the `GenericMenu` handlers coincide with the `PokeListMenu`
ones. -/
theorem C1_wraparound_in_bounds {α : Type} (s : ListPageSource α) (st : MenuState)
    (hmax : 1 ≤ s.get_max_pages)
    (h0 : 0 ≤ st.current_page) (h1 : st.current_page < (s.get_max_pages : Int)) :
    (∀ acts : List NavAct,
        0 ≤ (navRun s st acts).current_page
        ∧ (navRun s st acts).current_page < (s.get_max_pages : Int))
    ∧ (st.current_page = (s.get_max_pages : Int) - 1 →
        (PokeListMenu.next s st).state.current_page = 0)
    ∧ (st.current_page ≠ (s.get_max_pages : Int) - 1 →
        (PokeListMenu.next s st).state.current_page = st.current_page + 1)
    ∧ (st.current_page = 0 →
        (PokeListMenu.prev s st).state.current_page = (s.get_max_pages : Int) - 1)
    ∧ (st.current_page ≠ 0 →
        (PokeListMenu.prev s st).state.current_page = st.current_page - 1)
    ∧ GenericMenu.next s st = PokeListMenu.next s st
    ∧ GenericMenu.prev s st = PokeListMenu.prev s st := by
  refine ⟨fun acts => navRun_preserves s acts st hmax h0 h1, ?_, ?_, ?_, ?_, rfl, rfl⟩
  · intro hc
    rw [PokeListMenu.next_eq s st hmax h0 h1, if_pos hc]
  · intro hc
    rw [PokeListMenu.next_eq s st hmax h0 h1, if_neg hc]
  · intro hc
    rw [PokeListMenu.prev_eq s st hmax h0 h1, if_pos hc]
  · intro hc
    rw [PokeListMenu.prev_eq s st hmax h0 h1, if_neg hc]

/-- Witness for C1 at a three-page source starting at page 0. -/
theorem C1_wraparound_in_bounds_witness :
    0 ≤ (navRun exThree stZero [NavAct.prev, NavAct.next, NavAct.next]).current_page
    ∧ (navRun exThree stZero [NavAct.prev, NavAct.next, NavAct.next]).current_page
        < (exThree.get_max_pages : Int) :=
  (C1_wraparound_in_bounds exThree stZero (by decide) (by decide) (by decide)).1
    [NavAct.prev, NavAct.next, NavAct.next]

lemma number_page_pos {α : Type} (s : ListPageSource α) (st : MenuState) (t : Int)
    (hne : t ≠ 0) :
    PokeListMenu.number_page s st (JumpReply.intReply t) =
      ⟨(show_checked_page s st
          ((if (s.get_max_pages : Int) < t then (s.get_max_pages : Int) else t) - 1)).state,
        (show_checked_page s st
          ((if (s.get_max_pages : Int) < t then (s.get_max_pages : Int) else t) - 1)).renders,
        decide ((s.get_max_pages : Int) < t), true, true⟩ := by
  simp [PokeListMenu.number_page, hne]

lemma number_page_zero {α : Type} (s : ListPageSource α) (st : MenuState) :
    PokeListMenu.number_page s st (JumpReply.intReply 0) = ⟨st, [], false, false, false⟩ := by
  simp [PokeListMenu.number_page]

/-- C2 counterexample: with 5 pages and current index 3, the jump target 0
(which is `< 1`) leaves the index at 3 — it does not set it to 0 as the
claim states. -/
theorem C2_counterexample :
    (PokeListMenu.number_page exFive stThree (JumpReply.intReply 0)).state.current_page = 3
    ∧ ((3 : Int) ≠ 0) := by decide

/-- C2 (amended): for `totalPages ≥ 1` and an in-range current index, a jump
with target `t ∈ [1, totalPages]` sets the index to `t - 1` without the
notice; `t > totalPages` clamps to `totalPages - 1` with the notice; and
`t < 1` leaves the index unchanged (a reply of 0 is discarded by the
handler's truthiness test, and a negative target fails the framework's
bounds check). -/
theorem C2_jump_clamps {α : Type} (s : ListPageSource α) (st : MenuState) (t : Int)
    (hmax : 1 ≤ s.get_max_pages)
    (h0 : 0 ≤ st.current_page) (h1 : st.current_page < (s.get_max_pages : Int)) :
    (1 ≤ t → t ≤ (s.get_max_pages : Int) →
        (PokeListMenu.number_page s st (JumpReply.intReply t)).state.current_page = t - 1
        ∧ (PokeListMenu.number_page s st (JumpReply.intReply t)).notice = false)
    ∧ ((s.get_max_pages : Int) < t →
        (PokeListMenu.number_page s st (JumpReply.intReply t)).state.current_page
          = (s.get_max_pages : Int) - 1
        ∧ (PokeListMenu.number_page s st (JumpReply.intReply t)).notice = true)
    ∧ (t < 1 →
        (PokeListMenu.number_page s st (JumpReply.intReply t)).state.current_page
          = st.current_page
        ∧ (PokeListMenu.number_page s st (JumpReply.intReply t)).notice = false) := by
  refine ⟨?_, ?_, ?_⟩
  · intro ht1 ht2
    have hne : t ≠ 0 := by omega
    have hnc : ¬ ((s.get_max_pages : Int) < t) := by omega
    rw [number_page_pos s st t hne, if_neg hnc]
    rw [show_checked_page_inRange s st _ (by omega) (by omega)]
    simp [decide_eq_false hnc]
  · intro ht
    have hne : t ≠ 0 := by omega
    rw [number_page_pos s st t hne, if_pos ht]
    rw [show_checked_page_inRange s st _ (by omega) (by omega)]
    simp [decide_eq_true ht]
  · intro ht
    by_cases h0t : t = 0
    · subst h0t
      rw [number_page_zero]
      exact ⟨rfl, rfl⟩
    · have hnc : ¬ ((s.get_max_pages : Int) < t) := by omega
      rw [number_page_pos s st t h0t, if_neg hnc]
      rw [show_checked_page_outRange s st _ (by omega)]
      simp [decide_eq_false hnc]

/-- Witness for C2: target 2 on a 5-page source at index 3 jumps to
index 1. -/
theorem C2_jump_clamps_witness :
    (PokeListMenu.number_page exFive stThree (JumpReply.intReply 2)).state.current_page = 1
    ∧ (PokeListMenu.number_page exFive stThree (JumpReply.intReply 2)).notice = false :=
  (C2_jump_clamps exFive stThree 2 (by decide) (by decide) (by decide)).1
    (by decide) (by decide)

/-- C3 counterexample: at `totalPages = 0` — which satisfies the claim's
`totalPages ≤ 1` — `_skip_single_arrows` does not fire (it tests `== 1`),
so previous/next are NOT hidden. -/
theorem C3_counterexample :
    GenericMenu.skip_single_arrows (some 0) = false
    ∧ EMOJI_PREV ∈ visibleEmojis GenericMenu.buttonList ⟨some 0, true⟩
    ∧ EMOJI_NEXT ∈ visibleEmojis GenericMenu.buttonList ⟨some 0, true⟩ := by decide

/-- C3 (amended): previous/next are hidden exactly when `totalPages` is
undefined or exactly 1 (at `totalPages = 0` they are shown); the first/last
jump controls are hidden exactly when `totalPages` is undefined or `≤ 2`;
at `totalPages ≥ 3` all controls are visible. -/
theorem C3_visibility_policy (t : Option Nat) :
    (GenericMenu.skip_single_arrows t = true ↔ t = none ∨ t = some 1)
    ∧ (GenericMenu.skip_double_triangle_buttons t = true ↔
        t = none ∨ ∃ m, t = some m ∧ m ≤ 2)
    ∧ (∀ m : Nat, t = some m → 3 ≤ m →
        GenericMenu.skip_single_arrows t = false
        ∧ GenericMenu.skip_double_triangle_buttons t = false) := by
  cases t with
  | none =>
    refine ⟨by simp [GenericMenu.skip_single_arrows], by simp [GenericMenu.skip_double_triangle_buttons], ?_⟩
    intro m hm
    exact absurd hm (by simp)
  | some m =>
    refine ⟨?_, ?_, ?_⟩
    · simp [GenericMenu.skip_single_arrows]
    · simp [GenericMenu.skip_double_triangle_buttons]
    · intro m' hm' h3
      have hmm : m = m' := by injection hm'
      subst hmm
      constructor
      · simp [GenericMenu.skip_single_arrows]
        omega
      · simp [GenericMenu.skip_double_triangle_buttons]
        omega

/-- Witness for C3: at one page the arrows are skipped; at three pages the
double triangles are not. -/
theorem C3_visibility_policy_witness :
    GenericMenu.skip_single_arrows (some 1) = true
    ∧ GenericMenu.skip_double_triangle_buttons (some 3) = false :=
  ⟨(C3_visibility_policy (some 1)).1.mpr (Or.inr rfl),
    ((C3_visibility_policy (some 3)).2.2 3 rfl (by decide)).2⟩

/-- C4: a payload whose actor is neither a bot owner nor the invoking
author fails `reaction_check`, and the controller step on it is a no-op:
same state, nothing rendered, nothing invoked, no error surfaced. -/
theorem C4_unauthorized_drop {α : Type} (s : ListPageSource α) (cfg : MenuConfig)
    (st : MenuState) (p : Payload) (r : JumpReply)
    (howner : p.user_id ∉ cfg.owner_ids) (hauthor : p.user_id ≠ cfg.author_id) :
    reaction_check cfg p = false
    ∧ pokeUpdate s cfg st p r = StepResult.noop st := by
  have hmem : p.user_id ∉ cfg.owner_ids ++ [cfg.author_id] := by
    intro h
    rcases List.mem_append.mp h with h' | h'
    · exact howner h'
    · rw [List.mem_singleton] at h'
      exact hauthor h'
  have hrc : reaction_check cfg p = false := by
    unfold reaction_check
    by_cases hmsg : p.message_id ≠ cfg.message_id
    · rw [if_pos hmsg]
    · rw [if_neg hmsg, if_pos hmem]
  refine ⟨hrc, ?_⟩
  unfold pokeUpdate
  by_cases hrun : st.running = false
  · rw [if_pos hrun]
  · rw [if_neg hrun, if_pos hrc]

/-- Witness for C4: user 99 is neither the author (20) nor an owner
([10]). -/
theorem C4_unauthorized_drop_witness :
    reaction_check ⟨1, [10], 20, [EMOJI_PREV]⟩ ⟨1, 99, EMOJI_PREV⟩ = false
    ∧ pokeUpdate exFive ⟨1, [10], 20, [EMOJI_PREV]⟩ stThree ⟨1, 99, EMOJI_PREV⟩
        JumpReply.timeout = StepResult.noop stThree :=
  C4_unauthorized_drop exFive ⟨1, [10], 20, [EMOJI_PREV]⟩ stThree ⟨1, 99, EMOJI_PREV⟩
    JumpReply.timeout (by decide) (by decide)

lemma foldl_noop {α : Type} (s : ListPageSource α) (cfg : MenuConfig)
    (evs : List (Payload × JumpReply)) :
    ∀ (st : MenuState) (acc : List Int), st.running = false →
      evs.foldl
        (fun acc ev =>
          let o := pokeUpdate s cfg acc.1 ev.1 ev.2
          (o.state, acc.2 ++ o.renders))
        (st, acc) = (st, acc) := by
  induction evs with
  | nil => intro st acc _; rfl
  | cons ev evs ih =>
    intro st acc h
    have hup : pokeUpdate s cfg st ev.1 ev.2 = StepResult.noop st := by
      unfold pokeUpdate
      rw [if_pos h]
    rw [List.foldl_cons]
    show evs.foldl _
      ((pokeUpdate s cfg st ev.1 ev.2).state,
        acc ++ (pokeUpdate s cfg st ev.1 ev.2).renders) = (st, acc)
    rw [hup]
    show evs.foldl _ (st, acc ++ []) = (st, acc)
    rw [List.append_nil]
    exact ih st acc h

/-- C5: processing the stop action on a running menu clears the running
flag without touching the index or rendering, and after that every further
event sequence leaves the state unchanged and renders nothing. -/
theorem C5_stop_terminal {α : Type} (s : ListPageSource α) (cfg : MenuConfig)
    (st : MenuState) (p : Payload) (r : JumpReply)
    (hrun : st.running = true) (hrc : reaction_check cfg p = true)
    (hemoji : p.emoji = EMOJI_STOP) :
    (pokeUpdate s cfg st p r).state = { st with running := false }
    ∧ (pokeUpdate s cfg st p r).renders = []
    ∧ (pokeUpdate s cfg st p r).state.current_page = st.current_page
    ∧ ∀ evs : List (Payload × JumpReply),
        runEvents s cfg (pokeUpdate s cfg st p r).state evs
          = ((pokeUpdate s cfg st p r).state, []) := by
  have hup : pokeUpdate s cfg st p r
      = ⟨PokeListMenu.stop_pages_default st, [], [], false, false, false, false⟩ := by
    unfold pokeUpdate
    rw [if_neg (by simp [hrun]), if_neg (by simp [hrc])]
    unfold pokeDispatch
    rw [if_neg (by rw [hemoji]; decide), if_pos hemoji]
  rw [hup]
  refine ⟨rfl, rfl, rfl, ?_⟩
  intro evs
  unfold runEvents
  exact foldl_noop s cfg evs _ [] rfl

/-- Witness for C5: after an authorized stop press, a further event does
nothing. -/
theorem C5_stop_terminal_witness :
    runEvents exFive ⟨1, [10], 20, [EMOJI_STOP]⟩
      (pokeUpdate exFive ⟨1, [10], 20, [EMOJI_STOP]⟩ stThree ⟨1, 20, EMOJI_STOP⟩
        JumpReply.timeout).state
      [(⟨1, 20, EMOJI_STOP⟩, JumpReply.timeout)]
      = ((pokeUpdate exFive ⟨1, [10], 20, [EMOJI_STOP]⟩ stThree ⟨1, 20, EMOJI_STOP⟩
        JumpReply.timeout).state, []) :=
  (C5_stop_terminal exFive ⟨1, [10], 20, [EMOJI_STOP]⟩ stThree ⟨1, 20, EMOJI_STOP⟩
    JumpReply.timeout rfl (by decide) rfl).2.2.2
    [(⟨1, 20, EMOJI_STOP⟩, JumpReply.timeout)]

lemma pyIndex_nil {α : Type} (i : Int) : pyIndex ([] : List α) i = none := by
  by_cases h : i < 0 <;> simp [pyIndex, h]

/-- C7 counterexample: with `totalPages = 0`, the `prev` handler calls
`show_page(-1)` and the page fetch raises `IndexError`, so a failure does
occur — contrary to "all operations are no-ops, no failure occurs". -/
theorem C7_counterexample :
    (PokeListMenu.prev exEmpty stZero).raised = true := by decide

/-- C7 (amended): at `totalPages = 0` with index 0, `next` and the jump
sub-dialog leave the state unchanged without failure, and the first/last
buttons are hidden; `prev`, however, raises an `IndexError` inside the page
fetch (caught by the framework's button-error hook) while still leaving the
index at 0. -/
theorem C7_zero_pages {α : Type} (s : ListPageSource α) (st : MenuState)
    (hmax : s.get_max_pages = 0) (hcur : st.current_page = 0) :
    ((PokeListMenu.next s st).state = st ∧ (PokeListMenu.next s st).raised = false)
    ∧ ((PokeListMenu.prev s st).state = st ∧ (PokeListMenu.prev s st).raised = true)
    ∧ (∀ r : JumpReply, (PokeListMenu.number_page s st r).state = st)
    ∧ GenericMenu.skip_double_triangle_buttons (some 0) = true := by
  have hmaxInt : (s.get_max_pages : Int) = 0 := by exact_mod_cast hmax
  refine ⟨?_, ?_, ?_, by decide⟩
  · have hne : st.current_page ≠ (s.get_max_pages : Int) - 1 := by omega
    unfold PokeListMenu.next
    rw [if_neg hne]
    rw [show_checked_page_outRange s st _ (by omega)]
    exact ⟨rfl, rfl⟩
  · unfold PokeListMenu.prev
    rw [if_pos hcur]
    have hnil : s.entries = [] := List.length_eq_zero.mp hmax
    have hget : s.get_page ((s.get_max_pages : Int) - 1) = none := by
      unfold ListPageSource.get_page
      rw [hnil, pyIndex_nil]
    unfold show_page
    rw [hget]
    exact ⟨rfl, rfl⟩
  · intro r
    cases r with
    | timeout => rfl
    | intReply t =>
      by_cases h0 : t = 0
      · subst h0
        rw [number_page_zero]
      · have hb : ¬ (0 ≤ (if (s.get_max_pages : Int) < t then (s.get_max_pages : Int) else t) - 1
            ∧ (if (s.get_max_pages : Int) < t then (s.get_max_pages : Int) else t) - 1
              < (s.get_max_pages : Int)) := by
          by_cases hlt : (s.get_max_pages : Int) < t
          · rw [if_pos hlt]; omega
          · rw [if_neg hlt]; omega
        rw [number_page_pos s st t h0, show_checked_page_outRange s st _ hb]

/-- Witness for C7 at the empty source. -/
theorem C7_zero_pages_witness :
    (PokeListMenu.next exEmpty stZero).state = stZero
    ∧ (PokeListMenu.next exEmpty stZero).raised = false :=
  (C7_zero_pages exEmpty stZero rfl rfl).1

/-- C6: evaluation of `number_page` on a five-page source at index 3 on the
three completion paths. Timeout deletes the prompt; the reply "10" jumps to
index 4 with the notice and deletes both messages (the spec's scenario);
but the reply "0" — a successful numeric reply — deletes neither the prompt
nor the reply, because `if pred.result:` is false for the parsed integer 0.
This exhibits the code bug against the claimed release discipline. -/
theorem C6_cleanup_truthiness_bug :
    ((PokeListMenu.number_page exFive stThree JumpReply.timeout).promptDeleted = true
      ∧ (PokeListMenu.number_page exFive stThree JumpReply.timeout).state = stThree)
    ∧ ((PokeListMenu.number_page exFive stThree (JumpReply.intReply 10)).state.current_page = 4
      ∧ (PokeListMenu.number_page exFive stThree (JumpReply.intReply 10)).notice = true
      ∧ (PokeListMenu.number_page exFive stThree (JumpReply.intReply 10)).promptDeleted = true
      ∧ (PokeListMenu.number_page exFive stThree (JumpReply.intReply 10)).replyDeleted = true)
    ∧ ((PokeListMenu.number_page exFive stThree (JumpReply.intReply 0)).promptDeleted = false
      ∧ (PokeListMenu.number_page exFive stThree (JumpReply.intReply 0)).replyDeleted = false
      ∧ (PokeListMenu.number_page exFive stThree (JumpReply.intReply 0)).state = stThree) := by
  decide

/-- C8: the select button is added exactly when the invoking author is the
menu's configured user, and an accepted select press forwards
`current_page + 1` as the `_id` of the external select command while
changing no menu state and rendering nothing. -/
theorem C8_select_forwards {α : Type} (s : ListPageSource α) (cfg : MenuConfig)
    (st : MenuState) (p : Payload) (r : JumpReply) (e : MenuEnv)
    (hrun : st.running = true) (hrc : reaction_check cfg p = true)
    (hemoji : p.emoji = EMOJI_SELECT) :
    (EMOJI_SELECT ∈ visibleEmojis PokeListMenu.buttonList e ↔ e.authorEqUser = true)
    ∧ (pokeUpdate s cfg st p r).state = st
    ∧ (pokeUpdate s cfg st p r).selects = [st.current_page + 1]
    ∧ (pokeUpdate s cfg st p r).renders = [] := by
  constructor
  · cases e with
    | mk mp aiu =>
      cases aiu <;>
        simp [visibleEmojis, PokeListMenu.buttonList, PokeListMenu.cant_select,
          EMOJI_PREV, EMOJI_STOP, EMOJI_NEXT, EMOJI_SELECT, EMOJI_JUMP]
  · have hup : pokeUpdate s cfg st p r
        = ⟨(PokeListMenu.select st).1, [], [(PokeListMenu.select st).2],
            false, false, false, false⟩ := by
      unfold pokeUpdate
      rw [if_neg (by simp [hrun]), if_neg (by simp [hrc])]
      unfold pokeDispatch
      rw [if_neg (by rw [hemoji]; decide), if_neg (by rw [hemoji]; decide),
        if_neg (by rw [hemoji]; decide), if_neg (by rw [hemoji]; decide),
        if_pos hemoji]
    rw [hup]
    exact ⟨rfl, rfl, rfl⟩

/-- Witness for C8: an authorized select press at index 3 forwards id 4. -/
theorem C8_select_forwards_witness :
    (pokeUpdate exFive ⟨1, [10], 20, [EMOJI_SELECT]⟩ stThree ⟨1, 20, EMOJI_SELECT⟩
        JumpReply.timeout).selects = [stThree.current_page + 1] :=
  (C8_select_forwards exFive ⟨1, [10], 20, [EMOJI_SELECT]⟩ stThree ⟨1, 20, EMOJI_SELECT⟩
    JumpReply.timeout ⟨none, true⟩ rfl (by decide) rfl).2.2.1

/-- C9 counterexample: a record whose dict has no truthy `"id"` gets no
thumbnail at all (`set_thumbnail` is guarded by `if pokemon.get("id")`),
contradicting "for every Pokémon record the renderer produces a thumbnail
reference". -/
theorem C9_counterexample :
    (PokeList.format_page (fun _ => "tbl") (fun l => l) (fun n => n)
        ⟨[noIdRecord]⟩ noIdRecord).thumbnail = none := rfl

/-- C9 (amended): for every record with a truthy catalog id the thumbnail
is the record's explicit URL when truthy and otherwise the default asset
URL keyed by the zero-padded id; a record without a truthy id gets no
thumbnail; and the footer always shows the display id over the total
count. -/
theorem C9_render_thumbnail_footer (tab : List (String × Nat) → String)
    (cx : Nat → Nat) (gn : String → String)
    (s : ListPageSource PokemonRecord) (p : PokemonRecord) :
    (truthyNat p.id = true → truthyStr p.url = true →
        (PokeList.format_page tab cx gn s p).thumbnail = some (p.url.getD ""))
    ∧ (truthyNat p.id = true → truthyStr p.url = false →
        (PokeList.format_page tab cx gn s p).thumbnail
          = some (defaultThumbUrl (p.id.getD 0)))
    ∧ (truthyNat p.id = false →
        (PokeList.format_page tab cx gn s p).thumbnail = none)
    ∧ (PokeList.format_page tab cx gn s p).footer
        = "Pokémon ID: " ++ toString p.sid ++ "/" ++ toString s.get_max_pages := by
  refine ⟨?_, ?_, ?_, rfl⟩
  · intro hid hurl
    simp [PokeList.format_page, hid, hurl]
  · intro hid hurl
    simp [PokeList.format_page, hid, hurl]
  · intro hid
    simp [PokeList.format_page, hid]

/-- Witness for C9: the default URL for Bulbasaur (id 1, no explicit URL)
and the explicit URL for the record that has one. -/
theorem C9_render_thumbnail_footer_witness :
    (PokeList.format_page (fun _ => "tbl") (fun l => l) (fun n => n)
        ⟨[bulbaRecord, urlRecord]⟩ bulbaRecord).thumbnail = some (defaultThumbUrl 1)
    ∧ (PokeList.format_page (fun _ => "tbl") (fun l => l) (fun n => n)
        ⟨[bulbaRecord, urlRecord]⟩ urlRecord).thumbnail
      = some "https://example.com/pika.png" :=
  ⟨(C9_render_thumbnail_footer (fun _ => "tbl") (fun l => l) (fun n => n)
      ⟨[bulbaRecord, urlRecord]⟩ bulbaRecord).2.1 rfl rfl,
    (C9_render_thumbnail_footer (fun _ => "tbl") (fun l => l) (fun n => n)
      ⟨[bulbaRecord, urlRecord]⟩ urlRecord).1 rfl rfl⟩

/-- C10: in `PokeListMenu` the prev, stop, next and jump buttons carry no
`skip_if` at all — they are visible for every page count, one page and
undefined included — and only select is conditional, on the invoking
author being the configured user. -/
theorem C10_pokelist_controls (e : MenuEnv) :
    EMOJI_PREV ∈ visibleEmojis PokeListMenu.buttonList e
    ∧ EMOJI_STOP ∈ visibleEmojis PokeListMenu.buttonList e
    ∧ EMOJI_NEXT ∈ visibleEmojis PokeListMenu.buttonList e
    ∧ EMOJI_JUMP ∈ visibleEmojis PokeListMenu.buttonList e
    ∧ (EMOJI_SELECT ∈ visibleEmojis PokeListMenu.buttonList e
        ↔ e.authorEqUser = true) := by
  cases e with
  | mk mp aiu =>
    cases aiu <;>
      simp [visibleEmojis, PokeListMenu.buttonList, PokeListMenu.cant_select,
        EMOJI_PREV, EMOJI_STOP, EMOJI_NEXT, EMOJI_SELECT, EMOJI_JUMP]

/-- Witness for C10 at an undefined page count with a non-matching user. -/
theorem C10_pokelist_controls_witness :
    EMOJI_PREV ∈ visibleEmojis PokeListMenu.buttonList ⟨none, false⟩
    ∧ EMOJI_STOP ∈ visibleEmojis PokeListMenu.buttonList ⟨none, false⟩
    ∧ EMOJI_NEXT ∈ visibleEmojis PokeListMenu.buttonList ⟨none, false⟩
    ∧ EMOJI_JUMP ∈ visibleEmojis PokeListMenu.buttonList ⟨none, false⟩ :=
  ⟨(C10_pokelist_controls ⟨none, false⟩).1, (C10_pokelist_controls ⟨none, false⟩).2.1,
    (C10_pokelist_controls ⟨none, false⟩).2.2.1,
    (C10_pokelist_controls ⟨none, false⟩).2.2.2.1⟩

end Pokecord

